import Mathlib

/-!
Verification of the processor/scheduler core of a single-core teaching OS
kernel (`src/os5/src/task/processor.rs`).

The embedding is a shallow functional model of the module's state and
operations.  Rust panics (`unwrap` on an empty current-task slot, and
out-of-bounds array indexing) are modelled by `Option`-valued results, with
`none` meaning "the call aborts".  Machine integers are modelled by `Nat`
with explicit reduction modulo `2 ^ 32` (`u32`) and `2 ^ 64` (`usize`) where
overflow matters.  The control-flow and guard discipline of `run_tasks` and
`schedule` is modelled by the (finite) trace of guard-acquire / guard-drop /
switch events each function emits, translated line by line from the source.

External collaborators (the ready queue `fetch_task`, the timer
`get_time_ms`, and the address-space component `memory_set.mmap/munmap`) are
parameters of the corresponding operations, exactly as the spec treats them
(opaque collaborators whose results this module forwards).
-/

namespace OS5

/-- `u32` modulus: `syscall_times` entries are `u32` counters. -/
def U32_MOD : Nat := 2 ^ 32

/-- `usize` modulus: timestamps and the subtraction in
`get_current_task_costed_time` are `usize` arithmetic. -/
def USIZE_MOD : Nat := 2 ^ 64

/-- Modelled from the spec: the configuration constant `MAX_SYSCALL_NUM`
(`crate::config::MAX_SYSCALL_NUM`), the fixed width of the per-task syscall
counter vector.  Its definition is outside the shown source; the lab
configuration uses 500.  No claim depends on the particular value. -/
def MAX_SYSCALL_NUM : Nat := 500

/-- Task status enum (external `TaskStatus`); the spec requires at least
`Ready` and `Running`, and this module only ever writes `Running`. -/
inductive TaskStatus where
  | Ready
  | Running
  | Zombie
  deriving DecidableEq, Repr

/-- Saved execution context (`TaskContext`).  Its contents are opaque to this
module; only its identity as a slot matters.  `zero_init` is the all-zero
record used for the idle slot. -/
structure TaskContext where
  regs : Nat
  deriving DecidableEq, Repr

def TaskContext.zero_init : TaskContext := ⟨0⟩

/-- Address-space component (`MemorySet`), an external collaborator.  Its
internal representation is opaque to this module. -/
structure MemorySet where
  data : Nat
  deriving DecidableEq, Repr

/-- Task control block (external `TaskControlBlock` together with the fields
of its inner exclusively-accessed part that this module reads or writes):
status, saved context, trap context, user-space token, first-scheduled
timestamp, the `u32` syscall counter vector, and the address-space
component. -/
structure TaskControlBlock where
  pid : Nat
  task_status : TaskStatus
  task_cx : TaskContext
  trap_cx : Nat
  user_token : Nat
  first_time : Nat
  syscall_times : List Nat
  memory_set : MemorySet
  deriving DecidableEq, Repr

/-- Processor management structure: the current-task slot and the idle
saved-context slot. -/
structure Processor where
  current : Option TaskControlBlock
  idle_task_cx : TaskContext
  deriving DecidableEq, Repr

/-- `Processor::new`. -/
def Processor.new : Processor :=
  { current := none, idle_task_cx := TaskContext.zero_init }

/-- `Processor::take_current`: `self.current.take()` — returns the held
option and leaves `None` in its place. -/
def Processor.take_current (p : Processor) : Option TaskControlBlock × Processor :=
  (p.current, { p with current := none })

/-! The Rust method `Processor::current` clones the `Arc` out of the slot
without modifying it; in the functional model this is exactly the field read
`Processor.current`, which also serves as the method. -/

/-- Context-slot identities used as arguments of the switch primitive
`__switch(save_into, resume_from)`: the processor's idle slot, a task's own
saved-context slot, or a caller-supplied raw pointer. -/
inductive CxSlot where
  | idle
  | taskCx (pid : Nat)
  | caller (id : Nat)
  deriving DecidableEq, Repr

/-- Guard / switch events emitted by `run_tasks` and `schedule`, in source
order: acquiring and dropping the `PROCESSOR` exclusive-access guard,
capturing the idle-context pointer, acquiring and dropping a task's inner
exclusive-access guard, capturing the task's context pointer, writing
`task_status = Running`, storing the task into `Processor.current`, and the
call to `__switch`. -/
inductive Event where
  | acquireProcessor
  | dropProcessorGuard
  | captureIdlePtr
  | acquireTask (pid : Nat)
  | captureTaskCx (pid : Nat)
  | setRunning (pid : Nat)
  | setCurrent (pid : Nat)
  | dropTask (pid : Nat)
  | switchTo (saveInto resumeFrom : CxSlot)
  deriving DecidableEq, Repr

/-- Nesting depth of the `PROCESSOR` guard over a trace: acquisitions minus
drops. -/
def procDepth : List Event → Int
  | [] => 0
  | Event.acquireProcessor :: tl => 1 + procDepth tl
  | Event.dropProcessorGuard :: tl => procDepth tl - 1
  | _ :: tl => procDepth tl

/-- Nesting depth of task inner guards over a trace: acquisitions minus
drops. -/
def taskDepth : List Event → Int
  | [] => 0
  | Event.acquireTask _ :: tl => 1 + taskDepth tl
  | Event.dropTask _ :: tl => taskDepth tl - 1
  | _ :: tl => taskDepth tl

/-- One iteration of the dispatch loop `run_tasks`, given the result of the
external `fetch_task()` collaborator.  Translated line by line from the
source: acquire the `PROCESSOR` guard; if a task was fetched, capture the
idle-context pointer, acquire the task's inner guard, capture the task's
context pointer, set its status to `Running`, drop the task guard, store the
task into `Processor.current`, drop the processor guard, and call
`__switch(idle_task_cx_ptr, next_task_cx_ptr)`; otherwise the guard is
dropped at the end of the loop body.  Returns the processor state at the
moment of the switch together with the event trace of the iteration. -/
def runTasksIter (p : Processor) (fetched : Option TaskControlBlock) :
    Processor × List Event :=
  match fetched with
  | none => (p, [Event.acquireProcessor, Event.dropProcessorGuard])
  | some task =>
    ({ current := some { task with task_status := TaskStatus.Running },
       idle_task_cx := p.idle_task_cx },
     [Event.acquireProcessor, Event.captureIdlePtr,
      Event.acquireTask task.pid, Event.captureTaskCx task.pid,
      Event.setRunning task.pid, Event.dropTask task.pid,
      Event.setCurrent task.pid, Event.dropProcessorGuard,
      Event.switchTo CxSlot.idle (CxSlot.taskCx task.pid)])

/-- `schedule(switched_task_cx_ptr)`: acquire the `PROCESSOR` guard, capture
the idle-context pointer, drop the guard, then
`__switch(switched_task_cx_ptr, idle_task_cx_ptr)`.  Returns the processor
state at the moment of the switch together with the event trace. -/
def schedule (p : Processor) (switched_task_cx_ptr : CxSlot) :
    Processor × List Event :=
  (p, [Event.acquireProcessor, Event.captureIdlePtr,
       Event.dropProcessorGuard,
       Event.switchTo switched_task_cx_ptr CxSlot.idle])

/-- `take_current_task()`: delegates to `Processor::take_current` through the
guarded singleton. -/
def take_current_task (p : Processor) : Option TaskControlBlock × Processor :=
  p.take_current

/-- `current_task()`: delegates to `Processor::current` (a clone of the
slot's handle, no modification). -/
def current_task (p : Processor) : Option TaskControlBlock :=
  p.current

/-- `current_user_token()`: `current_task().unwrap()` then
`get_user_token()`; `none` models the panic of `unwrap` on an empty slot. -/
def current_user_token (p : Processor) : Option Nat :=
  (current_task p).map fun t => t.user_token

/-- `current_trap_cx()`: `current_task().unwrap().inner.get_trap_cx()`;
`none` models the panic of `unwrap` on an empty slot. -/
def current_trap_cx (p : Processor) : Option Nat :=
  (current_task p).map fun t => t.trap_cx

/-- `get_current_task_status()`: returns the literal `TaskStatus::Running`
without touching any state. -/
def get_current_task_status (_ : Processor) : TaskStatus :=
  TaskStatus.Running

/-- Wrapping `usize` subtraction (release-mode Rust semantics of `a - b` on
`usize`), for operands below `2 ^ 64`. -/
def usize_sub (a b : Nat) : Nat := (USIZE_MOD + a - b) % USIZE_MOD

/-- `get_current_task_costed_time()`: `current_task().unwrap()`, read the
timer collaborator `get_time_ms()` (passed here as the parameter
`get_time_ms`), and return `now - first_time`; `none` models the panic of
`unwrap` on an empty slot. -/
def get_current_task_costed_time (get_time_ms : Nat) (p : Processor) :
    Option Nat :=
  (current_task p).map fun t => usize_sub get_time_ms t.first_time

/-- `add_one_to_current_task(call_id)`:
`current_task().unwrap().inner.syscall_times[call_id] += 1`.  `none` models
both panics: `unwrap` on an empty slot, and the unguarded index when
`call_id` is out of bounds of the fixed-size `u32` array.  The increment is
`u32` arithmetic, hence reduced modulo `2 ^ 32`. -/
def add_one_to_current_task (p : Processor) (call_id : Nat) :
    Option Processor :=
  match current_task p with
  | none => none
  | some t =>
    if h : call_id < t.syscall_times.length then
      some { p with current := some { t with
        syscall_times := t.syscall_times.set call_id
          ((t.syscall_times.get ⟨call_id, h⟩ + 1) % U32_MOD) } }
    else none

/-- `get_current_task_syscall_times()`: `current_task().unwrap()` then a
clone of the counter vector; `none` models the panic of `unwrap`. -/
def get_current_task_syscall_times (p : Processor) : Option (List Nat) :=
  (current_task p).map fun t => t.syscall_times

/-- `mmap(start, len, port)`: `current_task().unwrap()`, then delegate to
the address-space collaborator `memory_set.mmap` (passed here as the
parameter `memory_set_mmap`, which returns the status code and the updated
component) and return its status code.  `none` models the panic of
`unwrap`. -/
def mmap (memory_set_mmap : MemorySet → Nat → Nat → Nat → Int × MemorySet)
    (p : Processor) (start len port : Nat) : Option (Int × Processor) :=
  match current_task p with
  | none => none
  | some t =>
    let r := memory_set_mmap t.memory_set start len port
    some (r.1, { p with current := some { t with memory_set := r.2 } })

/-- `munmap(start, len)`: `current_task().unwrap()`, then delegate to the
address-space collaborator `memory_set.munmap` and return its status
code.  `none` models the panic of `unwrap`. -/
def munmap (memory_set_munmap : MemorySet → Nat → Nat → Int × MemorySet)
    (p : Processor) (start len : Nat) : Option (Int × Processor) :=
  match current_task p with
  | none => none
  | some t =>
    let r := memory_set_munmap t.memory_set start len
    some (r.1, { p with current := some { t with memory_set := r.2 } })

/-- Whether an event is the call to the context-switch primitive. -/
def isSwitch : Event → Bool
  | Event.switchTo _ _ => true
  | _ => false

/-- A concrete address-space collaborator (used to instantiate theorems at
concrete inputs): reports a negative sentinel when the permission bits are
zero, otherwise success. -/
def demoMmap : MemorySet → Nat → Nat → Nat → Int × MemorySet :=
  fun m start len port =>
    (if port = 0 then (-1 : Int) else 0, ⟨m.data + start + len + port⟩)

/-- A concrete address-space unmap collaborator (used to instantiate
theorems at concrete inputs). -/
def demoMunmap : MemorySet → Nat → Nat → Int × MemorySet :=
  fun m start len => (if len = 0 then (-1 : Int) else 0, ⟨m.data + start + len⟩)

/-- A concrete task control block with a fresh counter vector of the
configured width. -/
def demoTask : TaskControlBlock :=
  { pid := 7, task_status := TaskStatus.Ready, task_cx := ⟨3⟩,
    trap_cx := 11, user_token := 42, first_time := 100,
    syscall_times := List.replicate MAX_SYSCALL_NUM 0, memory_set := ⟨5⟩ }

/-- A concrete processor with `demoTask` current. -/
def demoProc : Processor :=
  { current := some demoTask, idle_task_cx := TaskContext.zero_init }

/-- A concrete task whose counter at index 0 sits at the largest `u32`
value, `2 ^ 32 - 1`. -/
def wrapTask : TaskControlBlock :=
  { pid := 1, task_status := TaskStatus.Running,
    task_cx := TaskContext.zero_init, trap_cx := 0, user_token := 0,
    first_time := 0, syscall_times := 4294967295 :: List.replicate 499 0,
    memory_set := ⟨0⟩ }

/-- A concrete processor with `wrapTask` current. -/
def wrapProc : Processor :=
  { current := some wrapTask, idle_task_cx := TaskContext.zero_init }

/-! ## Helper lemmas -/

/-- `List.getD` at an in-bounds index is `List.get`. -/
theorem getD_eq_get (l : List Nat) (i : Nat) (h : i < l.length) :
    l.getD i 0 = l.get ⟨i, h⟩ := by
  simp [List.getD_eq_getElem?_getD, List.getElem?_eq_getElem h]

/-! ## Claim theorems -/

/-- C1: every exported current-task accessor (`current_user_token`,
`current_trap_cx`, `get_current_task_costed_time`,
`add_one_to_current_task`, `get_current_task_syscall_times`, `mmap`,
`munmap`) aborts (modelled by `none`) when `Processor.current` is empty;
none of them has a non-aborting path in that state. -/
theorem accessors_abort_without_current (p : Processor)
    (h : p.current = none) (get_time_ms call_id start len port : Nat)
    (mm : MemorySet → Nat → Nat → Nat → Int × MemorySet)
    (um : MemorySet → Nat → Nat → Int × MemorySet) :
    current_user_token p = none ∧
    current_trap_cx p = none ∧
    get_current_task_costed_time get_time_ms p = none ∧
    add_one_to_current_task p call_id = none ∧
    get_current_task_syscall_times p = none ∧
    mmap mm p start len port = none ∧
    munmap um p start len = none := by
  simp [current_user_token, current_trap_cx, get_current_task_costed_time,
    add_one_to_current_task, get_current_task_syscall_times, mmap, munmap,
    current_task, h]

/-- Witness for C1 at the freshly created processor, whose slot is empty. -/
theorem accessors_abort_without_current_witness :
    Processor.new.current = none ∧
    (current_user_token Processor.new = none ∧
     current_trap_cx Processor.new = none ∧
     get_current_task_costed_time 150 Processor.new = none ∧
     add_one_to_current_task Processor.new 3 = none ∧
     get_current_task_syscall_times Processor.new = none ∧
     mmap demoMmap Processor.new 4096 4096 1 = none ∧
     munmap demoMunmap Processor.new 4096 4096 = none) :=
  ⟨rfl, accessors_abort_without_current Processor.new rfl 150 3 4096 4096 1
    demoMmap demoMunmap⟩

/-- C4: with a task current, `get_current_task_costed_time` returns exactly
`now - first_scheduled_time`, and the difference is non-negative under the
monotonicity hypothesis `first_time ≤ now` (with `now` a `usize` value). -/
theorem costed_time_exact (p : Processor) (t : TaskControlBlock)
    (get_time_ms : Nat) (hc : p.current = some t)
    (hmono : t.first_time ≤ get_time_ms) (hsz : get_time_ms < USIZE_MOD) :
    get_current_task_costed_time get_time_ms p
      = some (get_time_ms - t.first_time) ∧
    0 ≤ (get_time_ms : Int) - (t.first_time : Int) := by
  have hM : USIZE_MOD = 18446744073709551616 := by norm_num [USIZE_MOD]
  refine ⟨?_, by omega⟩
  unfold get_current_task_costed_time current_task
  rw [hc]
  simp only [Option.map_some']
  congr 1
  unfold usize_sub
  rw [hM] at hsz ⊢
  omega

/-- Witness for C4: the spec's scenario — first scheduled at 100, clock now
at 150, cost is 50. -/
theorem costed_time_exact_witness :
    demoProc.current = some demoTask ∧
    demoTask.first_time ≤ 150 ∧ (150 : Nat) < USIZE_MOD ∧
    (get_current_task_costed_time 150 demoProc
        = some (150 - demoTask.first_time) ∧
     0 ≤ (150 : Int) - (demoTask.first_time : Int)) :=
  ⟨rfl, by decide, by decide,
   costed_time_exact demoProc demoTask 150 rfl (by decide) (by decide)⟩

/-- C5: `take_current_task` removes and returns the current handle and
leaves the slot empty, so an immediately following `current_task` returns
nothing; on an already-empty slot it returns nothing and the slot stays
empty (idempotent); `current_task` reads the slot without removing the
task, and neither operation touches the idle context. -/
theorem take_current_task_spec (p : Processor) :
    (take_current_task p).1 = p.current ∧
    (take_current_task p).2.current = none ∧
    (take_current_task p).2.idle_task_cx = p.idle_task_cx ∧
    current_task (take_current_task p).2 = none ∧
    (take_current_task (take_current_task p).2).1 = none ∧
    (take_current_task (take_current_task p).2).2.current = none ∧
    current_task p = p.current :=
  ⟨rfl, rfl, rfl, rfl, rfl, rfl, rfl⟩

/-- C9: `get_current_task_status` is the constant function
`TaskStatus::Running`: it ignores the processor state entirely, so it
returns `Running` for every state — also when no task is current, or when
the current task's actual status differs — and, being total, never
aborts. -/
theorem get_current_task_status_const (p : Processor) :
    get_current_task_status p = TaskStatus.Running ∧
    (get_current_task_status Processor.new = TaskStatus.Running ∧
     Processor.new.current = none) ∧
    (get_current_task_status demoProc = TaskStatus.Running ∧
     demoProc.current = some demoTask ∧
     demoTask.task_status = TaskStatus.Ready) :=
  ⟨rfl, ⟨rfl, rfl⟩, ⟨rfl, rfl, rfl⟩⟩

/-- C2: in every dispatching iteration of `run_tasks`, the task's inner
guard is dropped (position 5), then the processor guard is dropped
(position 7), and only then — strictly after both — the (unique) call to
`__switch` is issued (position 8); both guard depths are zero on the trace
prefix preceding the switch, so no guard is held across it. -/
theorem run_tasks_guards_released_before_switch (p : Processor)
    (t : TaskControlBlock) :
    ((runTasksIter p (some t)).2)[5]? = some (Event.dropTask t.pid) ∧
    ((runTasksIter p (some t)).2)[7]? = some Event.dropProcessorGuard ∧
    ((runTasksIter p (some t)).2)[8]?
      = some (Event.switchTo CxSlot.idle (CxSlot.taskCx t.pid)) ∧
    (runTasksIter p (some t)).2.length = 9 ∧
    (runTasksIter p (some t)).2.countP isSwitch = 1 ∧
    procDepth ((runTasksIter p (some t)).2.take 8) = 0 ∧
    taskDepth ((runTasksIter p (some t)).2.take 8) = 0 :=
  ⟨rfl, rfl, rfl, rfl, rfl, rfl, rfl⟩

/-- C6: `schedule` acquires the processor guard, captures the idle-slot
pointer, releases the guard, and only then issues the (unique) switch,
which saves into the caller-supplied slot and resumes from the idle slot;
the guard depths are zero at the switch, and `Processor.current` (indeed
the whole processor state) is left exactly as the caller left it. -/
theorem schedule_spec (p : Processor) (switched_task_cx_ptr : CxSlot) :
    (schedule p switched_task_cx_ptr).1 = p ∧
    (schedule p switched_task_cx_ptr).1.current = p.current ∧
    ((schedule p switched_task_cx_ptr).2)[0]? = some Event.acquireProcessor ∧
    ((schedule p switched_task_cx_ptr).2)[1]? = some Event.captureIdlePtr ∧
    ((schedule p switched_task_cx_ptr).2)[2]?
      = some Event.dropProcessorGuard ∧
    ((schedule p switched_task_cx_ptr).2)[3]?
      = some (Event.switchTo switched_task_cx_ptr CxSlot.idle) ∧
    (schedule p switched_task_cx_ptr).2.length = 4 ∧
    (schedule p switched_task_cx_ptr).2.countP isSwitch = 1 ∧
    procDepth ((schedule p switched_task_cx_ptr).2.take 3) = 0 ∧
    taskDepth ((schedule p switched_task_cx_ptr).2.take 3) = 0 :=
  ⟨rfl, rfl, rfl, rfl, rfl, rfl, rfl, rfl, rfl, rfl⟩

/-- C7: the only task-status write this module performs is setting the
dispatched task to `Running` in the dispatch loop; an empty-fetch
iteration, `schedule`, `take_current_task`, `add_one_to_current_task`,
`mmap` and `munmap` all leave every task status exactly as it was. -/
theorem only_dispatch_writes_status (p : Processor) (t : TaskControlBlock)
    (switched_task_cx_ptr : CxSlot) (call_id start len port : Nat)
    (mm : MemorySet → Nat → Nat → Nat → Int × MemorySet)
    (um : MemorySet → Nat → Nat → Int × MemorySet) :
    ((runTasksIter p (some t)).1.current.map fun q => q.task_status)
      = some TaskStatus.Running ∧
    (runTasksIter p none).1 = p ∧
    (schedule p switched_task_cx_ptr).1 = p ∧
    (take_current_task p).1 = p.current ∧
    (add_one_to_current_task p call_id).map
        (fun q => q.current.map fun r => r.task_status)
      = (add_one_to_current_task p call_id).map
        (fun _ => p.current.map fun r => r.task_status) ∧
    (mmap mm p start len port).map
        (fun rp => rp.2.current.map fun r => r.task_status)
      = (mmap mm p start len port).map
        (fun _ => p.current.map fun r => r.task_status) ∧
    (munmap um p start len).map
        (fun rp => rp.2.current.map fun r => r.task_status)
      = (munmap um p start len).map
        (fun _ => p.current.map fun r => r.task_status) := by
  refine ⟨rfl, rfl, rfl, rfl, ?_, ?_, ?_⟩
  · unfold add_one_to_current_task current_task
    cases hp : p.current with
    | none => simp
    | some t' =>
      by_cases hl : call_id < t'.syscall_times.length
      · simp [hp, hl]
      · simp [hp, hl]
  · unfold mmap current_task
    cases hp : p.current with
    | none => simp
    | some t' => simp
  · unfold munmap current_task
    cases hp : p.current with
    | none => simp
    | some t' => simp

/-- C8: with a task current, `mmap` and `munmap` delegate verbatim to the
current task's address-space component and return exactly the status code
it produces, without aborting (result is `some`) and changing nothing but
that task's `memory_set` (the record updates touch no other field). -/
theorem mmap_munmap_delegate (p : Processor) (t : TaskControlBlock)
    (start len port : Nat)
    (mm : MemorySet → Nat → Nat → Nat → Int × MemorySet)
    (um : MemorySet → Nat → Nat → Int × MemorySet)
    (hc : p.current = some t) :
    mmap mm p start len port
      = some ((mm t.memory_set start len port).1,
          { p with current := some { t with
              memory_set := (mm t.memory_set start len port).2 } }) ∧
    munmap um p start len
      = some ((um t.memory_set start len).1,
          { p with current := some { t with
              memory_set := (um t.memory_set start len).2 } }) := by
  unfold mmap munmap current_task
  rw [hc]
  exact ⟨rfl, rfl⟩

/-- Witness for C8 at a concrete collaborator whose permission-bit check
fails (negative sentinel) for these arguments. -/
theorem mmap_munmap_delegate_witness :
    demoProc.current = some demoTask ∧
    (mmap demoMmap demoProc 4096 8192 0
      = some ((demoMmap demoTask.memory_set 4096 8192 0).1,
          { demoProc with current := some { demoTask with
            memory_set := (demoMmap demoTask.memory_set 4096 8192 0).2 } }) ∧
     munmap demoMunmap demoProc 4096 8192
      = some ((demoMunmap demoTask.memory_set 4096 8192).1,
          { demoProc with current := some { demoTask with
            memory_set := (demoMunmap demoTask.memory_set 4096 8192).2 } })) :=
  ⟨rfl, mmap_munmap_delegate demoProc demoTask 4096 8192 0 demoMmap
    demoMunmap rfl⟩

set_option maxRecDepth 10000 in
/-- C3 counterexample: the counters are `u32` values, so at the largest
`u32` value `2 ^ 32 - 1` the increment wraps to `0` instead of increasing
the entry by exactly one — index 0 is a valid index (`0 <
MAX_SYSCALL_NUM`), a task is current, and yet the entry after
`add_one_to_current_task` is `0`, not the old value plus one. -/
theorem add_one_wraps_at_u32_max :
    wrapProc.current = some wrapTask ∧
    wrapTask.syscall_times.length = MAX_SYSCALL_NUM ∧
    0 < MAX_SYSCALL_NUM ∧
    wrapTask.syscall_times[0]? = some 4294967295 ∧
    ((add_one_to_current_task wrapProc 0).bind
        get_current_task_syscall_times).map (fun l => l[0]?)
      = some (some 0) ∧
    (0 : Nat) ≠ 4294967295 + 1 :=
  ⟨rfl, by simp [wrapTask, MAX_SYSCALL_NUM], by decide, rfl, rfl, by decide⟩

/-- C3 (amended): with a task current and a valid index `i <
MAX_SYSCALL_NUM`, `add_one_to_current_task i` sets the current task's
counter at `i` to `(old + 1) % 2 ^ 32` — an increase by exactly one except
when the `u32` counter wraps at `2 ^ 32 - 1` — leaves every other index
`j ≠ i` and all other task and processor state unchanged, and a subsequent
`get_current_task_syscall_times` returns the vector showing exactly that
change. -/
theorem add_one_increments_mod_u32 (p : Processor) (t : TaskControlBlock)
    (i j : Nat) (hc : p.current = some t) (hi : i < MAX_SYSCALL_NUM)
    (hl : t.syscall_times.length = MAX_SYSCALL_NUM) (hj : j ≠ i) :
    add_one_to_current_task p i
      = some { p with current := some { t with
          syscall_times := t.syscall_times.set i
            ((t.syscall_times.getD i 0 + 1) % U32_MOD) } } ∧
    (t.syscall_times.set i ((t.syscall_times.getD i 0 + 1) % U32_MOD))[i]?
      = some ((t.syscall_times.getD i 0 + 1) % U32_MOD) ∧
    (t.syscall_times.set i ((t.syscall_times.getD i 0 + 1) % U32_MOD))[j]?
      = t.syscall_times[j]? ∧
    (t.syscall_times.set i
        ((t.syscall_times.getD i 0 + 1) % U32_MOD)).length
      = t.syscall_times.length ∧
    (add_one_to_current_task p i).bind get_current_task_syscall_times
      = some (t.syscall_times.set i
          ((t.syscall_times.getD i 0 + 1) % U32_MOD)) := by
  have hlt : i < t.syscall_times.length := by rw [hl]; exact hi
  have hmain : add_one_to_current_task p i
      = some { p with current := some { t with
          syscall_times := t.syscall_times.set i
            ((t.syscall_times.getD i 0 + 1) % U32_MOD) } } := by
    unfold add_one_to_current_task current_task
    simp only [hc]
    rw [dif_pos hlt, getD_eq_get t.syscall_times i hlt]
  refine ⟨hmain, List.getElem?_set_self hlt,
    List.getElem?_set_ne (Ne.symm hj), by simp, ?_⟩
  rw [hmain]
  rfl

/-- Witness for C3 (amended) at the spec's scenario: a fresh counter
vector, index 5 incremented, index 3 inspected as an untouched one. -/
theorem add_one_increments_mod_u32_witness :
    demoProc.current = some demoTask ∧ 5 < MAX_SYSCALL_NUM ∧
    demoTask.syscall_times.length = MAX_SYSCALL_NUM ∧ (3 : Nat) ≠ 5 ∧
    (add_one_to_current_task demoProc 5
      = some { demoProc with current := some { demoTask with
          syscall_times := demoTask.syscall_times.set 5
            ((demoTask.syscall_times.getD 5 0 + 1) % U32_MOD) } } ∧
     (demoTask.syscall_times.set 5
        ((demoTask.syscall_times.getD 5 0 + 1) % U32_MOD))[5]?
      = some ((demoTask.syscall_times.getD 5 0 + 1) % U32_MOD) ∧
     (demoTask.syscall_times.set 5
        ((demoTask.syscall_times.getD 5 0 + 1) % U32_MOD))[3]?
      = demoTask.syscall_times[3]? ∧
     (demoTask.syscall_times.set 5
        ((demoTask.syscall_times.getD 5 0 + 1) % U32_MOD)).length
      = demoTask.syscall_times.length ∧
     (add_one_to_current_task demoProc 5).bind
        get_current_task_syscall_times
      = some (demoTask.syscall_times.set 5
          ((demoTask.syscall_times.getD 5 0 + 1) % U32_MOD))) :=
  ⟨rfl, by decide, by simp [demoTask], by decide,
   add_one_increments_mod_u32 demoProc demoTask 5 3 rfl (by decide)
     (by simp [demoTask]) (by decide)⟩

/-- C10: the array index in `add_one_to_current_task` is unguarded: with a
task current (whose counter vector has the configured width), any
`call_id < MAX_SYSCALL_NUM` is in bounds and the call succeeds, while any
`call_id ≥ MAX_SYSCALL_NUM` makes the indexing abort (modelled by `none`)
rather than silently ignoring or wrapping the increment. -/
theorem add_one_index_bounds (p : Processor) (t : TaskControlBlock)
    (ok_id big_id : Nat) (hc : p.current = some t)
    (hl : t.syscall_times.length = MAX_SYSCALL_NUM)
    (hok : ok_id < MAX_SYSCALL_NUM) (hbig : MAX_SYSCALL_NUM ≤ big_id) :
    (add_one_to_current_task p ok_id).isSome = true ∧
    add_one_to_current_task p big_id = none := by
  unfold add_one_to_current_task current_task
  simp only [hc]
  constructor
  · rw [dif_pos (show ok_id < t.syscall_times.length by
      rw [hl]; exact hok)]
    rfl
  · rw [dif_neg (show ¬ big_id < t.syscall_times.length by
      rw [hl]; omega)]

/-- Witness for C10: index 5 is in bounds and succeeds, index
`MAX_SYSCALL_NUM` itself is out of bounds and aborts. -/
theorem add_one_index_bounds_witness :
    demoProc.current = some demoTask ∧
    demoTask.syscall_times.length = MAX_SYSCALL_NUM ∧
    5 < MAX_SYSCALL_NUM ∧ MAX_SYSCALL_NUM ≤ 500 ∧
    ((add_one_to_current_task demoProc 5).isSome = true ∧
     add_one_to_current_task demoProc 500 = none) :=
  ⟨rfl, by simp [demoTask], by decide, by decide,
   add_one_index_bounds demoProc demoTask 5 500 rfl (by simp [demoTask])
     (by decide) (by decide)⟩

end OS5
